import Mathlib

/-!
Verification of the monitor engine of `bot.py` (multi-chain wallet monitor).

The definitions below are a shallow embedding of the monitor path of the
source: the four network-adapter checkers (`check_tron`, `check_ton`,
`check_solana`, `check_evm_unified`), the resilient fetch layer
(`fetch_with_retry`), the price cache (`get_price_usd`), and the per-wallet
dispatch (`check_single_wallet`).  Provider responses are passed in as
explicit values (the JSON fields each checker actually reads); HTTP effects
of `fetch_with_retry` are modelled by a response stream indexed by attempt;
chat sends, sleeps and watermark writes are modelled as an action trace.
-/

/-- A normalized transfer event, exactly the tuples the checkers build in the
source: (tx hash, asset symbol, decoded amount).  Python floats are modelled
as exact rationals. -/
abbrev Ev := String × String × ℚ

/-- Generic watermark scan shared by all four checkers.  Mirrors the loop
`for tx in window: if tx_id == last_tx: break; ... emit ...` : walk the
window in order, stop (exclusively) at the first element satisfying `stop`,
emitting each earlier element's events. -/
def scanUntil {α : Type} (stop : α → Prop) [DecidablePred stop] (emit : α → List Ev) :
    List α → List Ev
  | [] => []
  | x :: xs => if stop x then [] else emit x ++ scanUntil stop emit xs

/-- The longest prefix of the list strictly before the first element
satisfying `stop` (i.e. the part of the provider window the loop visits
before breaking at the watermark). -/
def beforeStop {α : Type} (stop : α → Prop) [DecidablePred stop] : List α → List α
  | [] => []
  | x :: xs => if stop x then [] else x :: beforeStop stop xs

/-! ### TRON adapter (`check_tron`, bot.py lines 1139-1167) -/

/-- One TRON transaction record, holding the JSON fields `check_tron` reads:
`hash`, `toAddress` (default ""), `tokenName` (default "TRX"),
whether `"trigger_info" in tx and "parameter" in tx["trigger_info"]`,
`amount` (default 0), and `tokenInfo.tokenDecimal` (default 6). -/
structure TronTx where
  hash : String
  toAddress : String
  tokenName : Option String
  hasTriggerParam : Bool
  amount : ℚ
  tokenDecimal : Option ℕ
  deriving DecidableEq

/-- The tronscan response body: the `data` list. -/
structure TronResp where
  data : List TronTx
  deriving DecidableEq

/-- Per-transaction normalization of `check_tron`: skip unless `toAddress`
case-insensitively matches, decode the amount (token decimals when a
trigger parameter is present, else the fixed 1e6 native scaling), and emit
only positive amounts. -/
def tronEmit (address : String) (tx : TronTx) : List Ev :=
  if tx.toAddress.toLower ≠ address.toLower then []
  else
    let token_name := tx.tokenName.getD "TRX"
    let amount : ℚ :=
      if tx.hasTriggerParam then tx.amount / 10 ^ tx.tokenDecimal.getD 6
      else tx.amount / 1000000
    if 0 < amount then [(tx.hash, token_name, amount)] else []

/-- `check_tron(address, last_tx)` with the provider response passed in
(`none` models a failed fetch, for which the source returns `[]`). -/
def check_tron (address last_tx : String) (resp : Option TronResp) : List Ev :=
  match resp with
  | none => []
  | some js => scanUntil (fun tx => tx.hash = last_tx) (tronEmit address) js.data

/-! ### TON adapter (`check_ton`, bot.py lines 1169-1191) -/

/-- The inbound-message leg of a TON transaction; `check_ton` reads only its
`value` (default 0). -/
structure TonMsg where
  value : ℤ
  deriving DecidableEq

/-- One TON transaction record: `hash` and `in_msg` (an absent or empty
`in_msg` dict makes the source skip the transaction, modelled as `none`). -/
structure TonTx where
  hash : String
  in_msg : Option TonMsg
  deriving DecidableEq

/-- The tonapi response body: the `transactions` list. -/
structure TonResp where
  transactions : List TonTx
  deriving DecidableEq

/-- Per-transaction normalization of `check_ton`: inspect only the inbound
message leg, scale its value by 1e9, emit only positive values. -/
def tonEmit (tx : TonTx) : List Ev :=
  match tx.in_msg with
  | none => []
  | some m =>
    let value : ℚ := (m.value : ℚ) / 10 ^ 9
    if 0 < value then [(tx.hash, "TON", value)] else []

/-- `check_ton(address, last_tx)` with the provider response passed in. -/
def check_ton (address last_tx : String) (resp : Option TonResp) : List Ev :=
  match resp with
  | none => []
  | some js => scanUntil (fun tx => tx.hash = last_tx) tonEmit js.transactions

/-! ### Solana adapter (`check_solana`, bot.py lines 1193-1232) -/

/-- One Solana token-transfer leg: `destination`, `amount` (default 0),
`symbol` (default "SOL"). -/
structure SolLeg where
  destination : String
  amount : ℚ
  symbol : Option String
  deriving DecidableEq

/-- One Solana transaction record: `txhash` (default ""), the
`tokenTransfers` legs, and `status` (default -1). -/
structure SolTx where
  txhash : String
  tokenTransfers : List SolLeg
  status : ℤ
  deriving DecidableEq

/-- Per-transaction normalization of `check_solana`: emit each leg whose
`destination` case-insensitively matches the address and whose amount is
positive; a transaction with no legs and `status == 1` emits the fallback
event with amount 0 (amount uncertain). -/
def solEmit (address : String) (tx : SolTx) : List Ev :=
  tx.tokenTransfers.filterMap (fun t =>
    if t.destination.toLower = address.toLower then
      if 0 < t.amount then some (tx.txhash, t.symbol.getD "SOL", t.amount) else none
    else none)
  ++ (if tx.tokenTransfers = [] then
        (if tx.status = 1 then [(tx.txhash, "SOL", (0 : ℚ))] else [])
      else [])

/-- `check_solana(address, last_tx)`: an empty `SOLSCAN_API_KEY` disables the
adapter; the response is the normalized transaction list (the source accepts
a bare JSON list or a `data` wrapper, both yielding this list; an empty list
short-circuits to `[]`, which coincides with scanning it). -/
def check_solana (apiKey address last_tx : String) (resp : Option (List SolTx)) : List Ev :=
  if apiKey = "" then []
  else
    match resp with
    | none => []
    | some txs => scanUntil (fun tx => tx.txhash = last_tx) (solEmit address) txs

/-! ### EVM unified adapter (`check_evm_unified`, bot.py lines 1072-1137) -/

/-- The `ETHERSCAN_NETWORKS` registry: network key mapped to
(display name, chain id, native symbol).  The testnet flag of the source is
omitted here: the monitor path never reads it. -/
def ETHERSCAN_NETWORKS : List (String × String × ℕ × String) := [
  ("ethereum", ("Ethereum Mainnet", 1, "ETH")),
  ("ethereum_sepolia", ("Ethereum Sepolia Testnet", 11155111, "ETH")),
  ("ethereum_holesky", ("Ethereum Holesky Testnet", 17000, "ETH")),
  ("ethereum_hoodi", ("Ethereum Hoodi Testnet", 560048, "ETH")),
  ("polygon", ("Polygon Mainnet", 137, "MATIC")),
  ("polygon_amoy", ("Polygon Amoy Testnet", 80002, "MATIC")),
  ("arbitrum", ("Arbitrum One Mainnet", 42161, "ETH")),
  ("arbitrum_nova", ("Arbitrum Nova Mainnet", 42170, "ETH")),
  ("arbitrum_sepolia", ("Arbitrum Sepolia Testnet", 421614, "ETH")),
  ("linea", ("Linea Mainnet", 59144, "ETH")),
  ("linea_sepolia", ("Linea Sepolia Testnet", 59141, "ETH")),
  ("blast", ("Blast Mainnet", 81457, "ETH")),
  ("blast_sepolia", ("Blast Sepolia Testnet", 168587773, "ETH")),
  ("bittorrent", ("BitTorrent Chain Mainnet", 199, "BTT")),
  ("bittorrent_testnet", ("BitTorrent Chain Testnet", 1029, "BTT")),
  ("celo", ("Celo Mainnet", 42220, "CELO")),
  ("celo_sepolia", ("Celo Sepolia Testnet", 11142220, "CELO")),
  ("fraxtal", ("Fraxtal Mainnet", 252, "ETH")),
  ("fraxtal_hoodi", ("Fraxtal Hoodi Testnet", 2523, "ETH")),
  ("gnosis", ("Gnosis", 100, "XDAI")),
  ("mantle", ("Mantle Mainnet", 5000, "MNT")),
  ("mantle_sepolia", ("Mantle Sepolia Testnet", 5003, "MNT")),
  ("memecore", ("Memecore Mainnet", 4352, "MEME")),
  ("memecore_testnet", ("Memecore Testnet", 43521, "MEME")),
  ("moonbeam", ("Moonbeam Mainnet", 1284, "GLMR")),
  ("moonriver", ("Moonriver Mainnet", 1285, "MOVR")),
  ("moonbase_alpha", ("Moonbase Alpha Testnet", 1287, "DEV")),
  ("opbnb", ("opBNB Mainnet", 204, "BNB")),
  ("opbnb_testnet", ("opBNB Testnet", 5611, "BNB")),
  ("scroll", ("Scroll Mainnet", 534352, "ETH")),
  ("scroll_sepolia", ("Scroll Sepolia Testnet", 534351, "ETH")),
  ("taiko", ("Taiko Mainnet", 167000, "ETH")),
  ("taiko_hoodi", ("Taiko Hoodi Testnet", 167013, "ETH")),
  ("xdc", ("XDC Mainnet", 50, "XDC")),
  ("xdc_apothem", ("XDC Apothem Testnet", 51, "XDC")),
  ("apechain", ("ApeChain Mainnet", 33139, "APE")),
  ("apechain_curtis", ("ApeChain Curtis Testnet", 33111, "APE")),
  ("world", ("World Mainnet", 480, "WLD")),
  ("world_sepolia", ("World Sepolia Testnet", 4801, "WLD")),
  ("sonic", ("Sonic Mainnet", 146, "S")),
  ("sonic_testnet", ("Sonic Testnet", 14601, "S")),
  ("unichain", ("Unichain Mainnet", 130, "ETH")),
  ("unichain_sepolia", ("Unichain Sepolia Testnet", 1301, "ETH")),
  ("abstract", ("Abstract Mainnet", 2741, "ETH")),
  ("abstract_sepolia", ("Abstract Sepolia Testnet", 11124, "ETH")),
  ("berachain", ("Berachain Mainnet", 80094, "BERA")),
  ("berachain_bepolia", ("Berachain Bepolia Testnet", 80069, "BERA")),
  ("swellchain", ("Swellchain Mainnet", 1923, "ETH")),
  ("swellchain_testnet", ("Swellchain Testnet", 1924, "ETH")),
  ("monad", ("Monad Mainnet", 143, "MON")),
  ("monad_testnet", ("Monad Testnet", 10143, "MON")),
  ("hyperevm", ("HyperEVM Mainnet", 999, "HYPE")),
  ("katana", ("Katana Mainnet", 747474, "ETH")),
  ("katana_bokuto", ("Katana Bokuto Testnet", 737373, "ETH")),
  ("sei", ("Sei Mainnet", 1329, "SEI")),
  ("sei_testnet", ("Sei Testnet", 1328, "SEI")),
  ("stable", ("Stable Mainnet", 988, "STABLE")),
  ("stable_testnet", ("Stable Testnet", 2201, "STABLE")),
  ("plasma", ("Plasma Mainnet", 9745, "PLS")),
  ("plasma_testnet", ("Plasma Testnet", 9746, "PLS"))]

/-- One record of the etherscan `txlist` (native) window: `hash`, `to`
(default ""), `value` (default 0).  `timeStamp` is the provider's block
timestamp, which orders the window (`sort=desc`); the checker itself never
reads it, it is carried only so ordering properties can be stated. -/
structure EvmNativeTx where
  hash : String
  toAddr : String
  value : ℤ
  timeStamp : ℚ
  deriving DecidableEq

/-- One record of the etherscan `tokentx` (ERC-20) window: `hash`, `to`,
`value`, `tokenDecimal` (default 18), `tokenSymbol` (default "TOKEN"), and
the unread provider `timeStamp` as above. -/
structure EvmTokenTx where
  hash : String
  toAddr : String
  value : ℤ
  tokenDecimal : Option ℕ
  tokenSymbol : Option String
  timeStamp : ℚ
  deriving DecidableEq

/-- An etherscan v2 response: the `status` string and the `result` window. -/
structure EvmResp (α : Type) where
  status : String
  result : List α
  deriving DecidableEq

/-- Per-transaction normalization of the native half of `check_evm_unified`:
count only transfers whose `to` case-insensitively matches, scale by 1e18,
discard zero values. -/
def evmNativeEmit (address native_symbol : String) (tx : EvmNativeTx) : List Ev :=
  if tx.toAddr.toLower = address.toLower then
    let value : ℚ := (tx.value : ℚ) / 10 ^ 18
    if 0 < value then [(tx.hash, native_symbol, value)] else []
  else []

/-- Per-transaction normalization of the token half of `check_evm_unified`:
count only transfers whose `to` matches, scale by the per-transfer decimals,
discard zero values. -/
def evmTokenEmit (address : String) (tx : EvmTokenTx) : List Ev :=
  if tx.toAddr.toLower = address.toLower then
    let decimals := tx.tokenDecimal.getD 18
    let value : ℚ := (tx.value : ℚ) / 10 ^ decimals
    let symbol := tx.tokenSymbol.getD "TOKEN"
    if 0 < value then [(tx.hash, symbol, value)] else []
  else []

/-- One half of the EVM check: a query's contribution is empty unless the
fetch succeeded and the response carries `status == "1"`; otherwise its
window is scanned down to the shared watermark. -/
def evmPart {α : Type} (emit : α → List Ev) (last_tx : String) (hashOf : α → String)
    (resp : Option (EvmResp α)) : List Ev :=
  match resp with
  | none => []
  | some js =>
    if js.status = "1" then scanUntil (fun tx => hashOf tx = last_tx) emit js.result
    else []

/-- `check_evm_unified(address, last_tx, net_key)`: an empty
`ETHERSCAN_API_KEY` or an unknown network key disables the adapter;
otherwise the native-transaction events are concatenated with the ERC-20
token-transfer events, both cut at the same watermark. -/
def check_evm_unified (apiKey address last_tx net_key : String)
    (nativeResp : Option (EvmResp EvmNativeTx)) (tokenResp : Option (EvmResp EvmTokenTx)) :
    List Ev :=
  if apiKey = "" then []
  else
    match ETHERSCAN_NETWORKS.lookup net_key with
    | none => []
    | some entry =>
      evmPart (evmNativeEmit address entry.2.2) last_tx (fun tx => tx.hash) nativeResp
        ++ evmPart (evmTokenEmit address) last_tx (fun tx => tx.hash) tokenResp

/-! ### Resilient fetch (`fetch_with_retry`, bot.py lines 368-393) -/

/-- What one HTTP attempt of `fetch_with_retry` can observe: an HTTP
response with a status code and (for 200) a body, a request timeout, or an
exception raised by the request. -/
inductive HResp where
  | httpStatus (code : ℕ) (body : String)
  | timeout
  | exc
  deriving DecidableEq

/-- The observable outcome of `fetch_with_retry`: the value returned to the
caller (the function is total, so it never raises), the number of HTTP
requests issued, and the durations (in seconds) of the sleeps performed
between attempts, in order. -/
structure FetchResult where
  result : Option String
  requests : ℕ
  sleeps : List ℚ
  deriving DecidableEq

/-- `MAX_RETRIES` of the source. -/
def MAX_RETRIES : ℕ := 3

/-- The retry loop of `fetch_with_retry`, with `resps n` the outcome of the
request issued on attempt `n` and `fuel` the remaining loop iterations
(`fuel = max_retries - attempt`; the source's test `attempt < max_retries - 1`
is `0 < fuel` after this attempt is consumed).  Status 200 returns the body;
429 sleeps `2 ^ attempt + attempt * 0.5` and retries; 404 and every other
status return `None` at once; a timeout retries, sleeping `2 ^ attempt`
unless this was the last attempt; any other exception returns `None` on the
last attempt and otherwise sleeps 1 second and retries. -/
def fetchAux (resps : ℕ → HResp) : ℕ → ℕ → FetchResult
  | _, 0 => ⟨none, 0, []⟩
  | attempt, fuel + 1 =>
    match resps attempt with
    | .httpStatus code body =>
      if code = 200 then ⟨some body, 1, []⟩
      else if code = 429 then
        let wait_time : ℚ := 2 ^ attempt + attempt * (1 / 2)
        let r := fetchAux resps (attempt + 1) fuel
        ⟨r.result, r.requests + 1, wait_time :: r.sleeps⟩
      else if code = 404 then ⟨none, 1, []⟩
      else ⟨none, 1, []⟩
    | .timeout =>
      let r := fetchAux resps (attempt + 1) fuel
      ⟨r.result, r.requests + 1, (if 0 < fuel then [(2 ^ attempt : ℚ)] else []) ++ r.sleeps⟩
    | .exc =>
      if fuel = 0 then ⟨none, 1, []⟩
      else
        let r := fetchAux resps (attempt + 1) fuel
        ⟨r.result, r.requests + 1, 1 :: r.sleeps⟩

/-- `fetch_with_retry(url)` with the default `max_retries = MAX_RETRIES`. -/
def fetch_with_retry (resps : ℕ → HResp) : FetchResult :=
  fetchAux resps 0 MAX_RETRIES

/-! ### Price oracle (`get_price_usd`, bot.py lines 283-344) -/

/-- `PRICE_CACHE_DURATION` of the source, in seconds. -/
def PRICE_CACHE_DURATION : ℚ := 60

/-- The `COINGECKO_IDS` symbol-to-provider-id table of the source. -/
def COINGECKO_IDS : List (String × String) := [
  ("TRX", "tron"),
  ("USDT", "tether"),
  ("USDC", "usd-coin"),
  ("BUSD", "binance-usd"),
  ("DAI", "dai"),
  ("TON", "the-open-network"),
  ("BNB", "binancecoin"),
  ("ETH", "ethereum"),
  ("MATIC", "matic-network"),
  ("WETH", "weth"),
  ("WBNB", "wbnb"),
  ("CAKE", "pancakeswap-token"),
  ("SHIB", "shiba-inu"),
  ("LINK", "chainlink"),
  ("UNI", "uniswap"),
  ("SOL", "solana"),
  ("BTT", "bittorrent"),
  ("CELO", "celo"),
  ("XDAI", "xdai"),
  ("MNT", "mantle"),
  ("GLMR", "moonbeam"),
  ("MOVR", "moonriver"),
  ("APE", "apecoin"),
  ("WLD", "worldcoin"),
  ("S", "sonic"),
  ("BERA", "berachain"),
  ("MON", "monad"),
  ("HYPE", "hyperliquid"),
  ("SEI", "sei"),
  ("XDC", "xdc-network"),
  ("PLS", "pulse")]

/-- Symbol normalization of `get_price_usd`: strip the decorative direction
suffixes, trim whitespace, upper-case. -/
def clean_symbol (symbol : String) : String :=
  (((symbol.replace " 📥 IN" "").replace " 📤 OUT" "").trim).toUpper

/-- What the price fetch can observe: a failure (a non-200 status or a
raised exception, both of which make the source return 0), or a successful
200 response whose body maps provider ids to their `usd` price (an id
missing from the body reads as price 0, as with the source's `get` chain). -/
inductive FetchOutcome where
  | failure
  | success (body : List (String × ℚ))
  deriving DecidableEq

/-- The observable outcome of `get_price_usd`: the returned price, the
price cache afterwards, and whether an HTTP request was issued.  The cache
is an association list keyed by cleaned symbol, newest entry first (a new
write shadows the older entry, as a dict assignment does). -/
structure PriceResult where
  price : ℚ
  cache : List (String × ℚ × ℚ)
  didFetch : Bool
  deriving DecidableEq

/-- The fetch branch of `get_price_usd`: map the cleaned symbol to a
provider id (table lookup, falling back to the lower-cased symbol), issue
the request; a failure returns 0 and leaves the cache untouched, a success
caches the looked-up price under the cleaned symbol at the current time. -/
def priceFetch (cache : List (String × ℚ × ℚ)) (now : ℚ) (cs : String)
    (outcome : FetchOutcome) : PriceResult :=
  let coin_id := (COINGECKO_IDS.lookup cs).getD cs.toLower
  match outcome with
  | .failure => ⟨0, cache, true⟩
  | .success body =>
    let price := (body.lookup coin_id).getD 0
    ⟨price, (cs, price, now) :: cache, true⟩

/-- `get_price_usd(symbol)` at time `now` with cache `cache`: return the
cached price if its entry is younger than `PRICE_CACHE_DURATION`, otherwise
fetch. -/
def get_price_usd (cache : List (String × ℚ × ℚ)) (now : ℚ) (symbol : String)
    (outcome : FetchOutcome) : PriceResult :=
  let cs := clean_symbol symbol
  match cache.lookup cs with
  | some (price, timestamp) =>
    if now - timestamp < PRICE_CACHE_DURATION then ⟨price, cache, false⟩
    else priceFetch cache now cs outcome
  | none => priceFetch cache now cs outcome

/-- Freshness test matching the cache-hit condition of `get_price_usd`:
there is an entry for the cleaned symbol younger than the TTL. -/
def isFresh (cache : List (String × ℚ × ℚ)) (now : ℚ) (symbol : String) : Bool :=
  match cache.lookup (clean_symbol symbol) with
  | some (_, timestamp) => decide (now - timestamp < PRICE_CACHE_DURATION)
  | none => false

/-! ### Per-wallet dispatch (`check_single_wallet`, bot.py lines 1237-1293) -/

/-- The externally observable actions of one `check_single_wallet` run, in
order: a delivered notification (recipient, tx hash, asset, amount), a
notification attempt that raised a delivery error (logged and skipped by
the source), a rate-limit sleep, and the single watermark write
(`update_last_tx`, the only wallet-row mutation the monitor path performs:
its UPDATE sets only `last_tx`). -/
inductive Act where
  | send (userId : ℕ) (txHash coin : String) (amount : ℚ)
  | sendFail (userId : ℕ) (txHash : String)
  | sleep (seconds : ℚ)
  | updateLastTx (walletId : ℕ) (tx : String)
  deriving DecidableEq

/-- Whether an action is the watermark write. -/
def Act.isUpdate : Act → Bool
  | .updateLastTx _ _ => true
  | _ => false

/-- Whether an action is a delivered notification. -/
def Act.isSend : Act → Bool
  | .send _ _ _ _ => true
  | _ => false

/-- The body of the dispatch loop for one transfer: a successful
`bot.send_message` is followed by the 0.5-second rate-limit sleep; a send
that raises is logged and skipped (the sleep inside the `try` is skipped
too).  `fails` tells, by tx hash, which sends raise.  The message text
itself (labels, formatted amounts, USD enrichment) is presentation and is
not modelled; the event identity is. -/
def sendOne (fails : String → Bool) (userId : ℕ) (ev : Ev) : List Act :=
  if fails ev.1 then [.sendFail userId ev.1]
  else [.send userId ev.1 ev.2.1 ev.2.2, .sleep (1 / 2)]

/-- The dispatch half of `check_single_wallet`: with no new transfers
nothing happens; otherwise the newest-first list is reversed and each
transfer dispatched oldest first, and afterwards `update_last_tx` is called
exactly once with `new_txs[0][0]`, the newest transfer's hash. -/
def dispatch_wallet (fails : String → Bool) (walletId userId : ℕ) (new_txs : List Ev) :
    List Act :=
  match new_txs with
  | [] => []
  | (latest, _, _) :: _ =>
    (new_txs.reverse.flatMap (sendOne fails userId)) ++ [.updateLastTx walletId latest]

/-- One row of the `wallets` table as `check_single_wallet` unpacks it
(the unused `created_at` column is dropped). -/
structure WalletRow where
  id : ℕ
  userId : ℕ
  network : String
  address : String
  label : String
  lastTx : String
  deriving DecidableEq

/-- The per-cycle environment of one wallet check: the configured API keys,
the provider responses this cycle would observe, and which notification
sends would raise. -/
structure Env where
  etherscanKey : String
  solscanKey : String
  tron : Option TronResp
  ton : Option TonResp
  sol : Option (List SolTx)
  evmNative : Option (EvmResp EvmNativeTx)
  evmToken : Option (EvmResp EvmTokenTx)
  fails : String → Bool

/-- The network routing of `check_single_wallet`: pick the checker by
network key; an unknown key is logged and produces nothing (the source
returns early, which yields the same empty action trace as an empty diff). -/
def walletDiff (env : Env) (w : WalletRow) : List Ev :=
  if w.network = "tron" then check_tron w.address w.lastTx env.tron
  else if w.network = "ton" then check_ton w.address w.lastTx env.ton
  else if w.network = "solana" then check_solana env.solscanKey w.address w.lastTx env.sol
  else if (ETHERSCAN_NETWORKS.lookup w.network).isSome then
    check_evm_unified env.etherscanKey w.address w.lastTx w.network env.evmNative env.evmToken
  else []

/-- `check_single_wallet(wallet_row)`: route to the adapter, then dispatch
the resulting new transfers. -/
def check_single_wallet (env : Env) (w : WalletRow) : List Act :=
  dispatch_wallet env.fails w.id w.userId (walletDiff env w)

/-! ### Helper lemmas -/

/-- The watermark scan emits exactly the events of the window prefix strictly
before the first stop element. -/
theorem scanUntil_eq_flatMap_beforeStop {α : Type} (stop : α → Prop) [DecidablePred stop]
    (emit : α → List Ev) (l : List α) :
    scanUntil stop emit l = (beforeStop stop l).flatMap emit := by
  induction l with
  | nil => rfl
  | cons x xs ih =>
    by_cases h : stop x <;> simp [scanUntil, beforeStop, h, ih]

/-- When no element stops the scan, the visited prefix is the whole list. -/
theorem beforeStop_eq_self {α : Type} (stop : α → Prop) [DecidablePred stop]
    (l : List α) (h : ∀ x ∈ l, ¬ stop x) : beforeStop stop l = l := by
  induction l with
  | nil => rfl
  | cons x xs ih =>
    rw [beforeStop, if_neg (h x (List.mem_cons_self x xs))]
    exact congrArg (x :: ·) (ih fun y hy => h y (List.mem_cons_of_mem x hy))

/-- The visited prefix is a sublist of the window. -/
theorem beforeStop_sublist {α : Type} (stop : α → Prop) [DecidablePred stop]
    (l : List α) : (beforeStop stop l).Sublist l := by
  induction l with
  | nil => exact List.Sublist.refl []
  | cons x xs ih =>
    rw [beforeStop]
    split
    · exact List.nil_sublist _
    · exact ih.cons₂ x

/-- Every event of a watermark scan is emitted by some window element. -/
theorem mem_scanUntil {α : Type} {stop : α → Prop} [DecidablePred stop]
    {emit : α → List Ev} {l : List α} {e : Ev}
    (h : e ∈ scanUntil stop emit l) : ∃ x ∈ l, e ∈ emit x := by
  induction l with
  | nil => simp [scanUntil] at h
  | cons x xs ih =>
    rw [scanUntil] at h
    split at h
    · simp at h
    · rcases List.mem_append.mp h with h1 | h2
      · exact ⟨x, List.mem_cons_self x xs, h1⟩
      · obtain ⟨y, hy, he⟩ := ih h2
        exact ⟨y, List.mem_cons_of_mem x hy, he⟩

/-- A list is pairwise related by a relation that holds everywhere. -/
theorem pairwise_of_all {β : Type} {S : β → β → Prop} (h : ∀ a b, S a b) :
    ∀ l : List β, l.Pairwise S
  | [] => .nil
  | x :: xs => .cons (fun b _ => h x b) (pairwise_of_all h xs)

/-- The retry loop never issues more requests than it has attempts left. -/
theorem fetchAux_requests_le (resps : ℕ → HResp) :
    ∀ (fuel attempt : ℕ), (fetchAux resps attempt fuel).requests ≤ fuel
  | 0, _ => Nat.le_refl 0
  | fuel + 1, attempt => by
    have ih := fetchAux_requests_le resps fuel (attempt + 1)
    cases hr : resps attempt with
    | httpStatus code body =>
      simp only [fetchAux, hr]
      split_ifs <;> simp <;> omega
    | timeout =>
      simp only [fetchAux, hr]
      omega
    | exc =>
      simp only [fetchAux, hr]
      split_ifs <;> simp <;> omega

/-- A TRON event originates from its transaction: same hash, and the
transaction's `toAddress` case-insensitively matches the monitored
address. -/
theorem mem_tronEmit {a : String} {tx : TronTx} {e : Ev} (h : e ∈ tronEmit a tx) :
    e.1 = tx.hash ∧ tx.toAddress.toLower = a.toLower := by
  unfold tronEmit at h
  split_ifs at h with h1 <;> simp_all

/-- An EVM native event originates from a transaction whose `to` matches. -/
theorem mem_evmNativeEmit {a sym : String} {tx : EvmNativeTx} {e : Ev}
    (h : e ∈ evmNativeEmit a sym tx) :
    e.1 = tx.hash ∧ tx.toAddr.toLower = a.toLower := by
  unfold evmNativeEmit at h
  split_ifs at h with h1 <;> simp_all

/-- An EVM token event originates from a transfer whose `to` matches. -/
theorem mem_evmTokenEmit {a : String} {tx : EvmTokenTx} {e : Ev}
    (h : e ∈ evmTokenEmit a tx) :
    e.1 = tx.hash ∧ tx.toAddr.toLower = a.toLower := by
  unfold evmTokenEmit at h
  split_ifs at h with h1 <;> simp_all

/-- A TON event originates from the inbound-message leg of its
transaction. -/
theorem mem_tonEmit {tx : TonTx} {e : Ev} (h : e ∈ tonEmit tx) :
    ∃ m, tx.in_msg = some m ∧ e = (tx.hash, "TON", (m.value : ℚ) / 10 ^ 9) := by
  unfold tonEmit at h
  cases htx : tx.in_msg with
  | none => rw [htx] at h; simp at h
  | some m =>
    rw [htx] at h
    dsimp only at h
    split_ifs at h with hv
    · exact ⟨m, rfl, by simpa using h⟩
    · simp at h

/-- A Solana event is either a token leg whose `destination` matches the
address, or the fallback event of a successful transaction with no legs. -/
theorem mem_solEmit {a : String} {tx : SolTx} {e : Ev} (h : e ∈ solEmit a tx) :
    (∃ leg ∈ tx.tokenTransfers, leg.destination.toLower = a.toLower ∧
       e = (tx.txhash, leg.symbol.getD "SOL", leg.amount)) ∨
    (tx.tokenTransfers = [] ∧ tx.status = 1 ∧ e = (tx.txhash, "SOL", (0 : ℚ))) := by
  unfold solEmit at h
  rcases List.mem_append.mp h with h1 | h2
  · obtain ⟨leg, hleg, he⟩ := List.mem_filterMap.mp h1
    by_cases hd : leg.destination.toLower = a.toLower
    · rw [if_pos hd] at he
      by_cases hp : (0 : ℚ) < leg.amount
      · rw [if_pos hp] at he
        exact Or.inl ⟨leg, hleg, hd, (Option.some_inj.mp he).symm⟩
      · rw [if_neg hp] at he
        exact absurd he (by simp)
    · rw [if_neg hd] at he
      exact absurd he (by simp)
  · right
    split_ifs at h2 with hl hs
    · exact ⟨hl, hs, by simpa using h2⟩
    · exact absurd h2 (by simp)
    · exact absurd h2 (by simp)

/-- Tagging each emitted event with its source transaction's timestamp
preserves pairwise descending order: within one transaction's events the
timestamps are equal, across transactions they follow the window order. -/
theorem pairwise_flatMap_ts {α : Type} (R : ℚ → ℚ → Prop) (hR : ∀ q, R q q)
    (ts : α → ℚ) (f : α → List Ev) :
    ∀ l : List α, l.Pairwise (fun a b => R (ts a) (ts b)) →
      (l.flatMap (fun x => (f x).map (fun e => (e, ts x)))).Pairwise
        (fun p q => R p.2 q.2) := by
  intro l
  induction l with
  | nil => intro _; simp
  | cons x xs ih =>
    intro h
    rw [List.pairwise_cons] at h
    rw [List.flatMap_cons]
    rw [List.pairwise_append]
    refine ⟨?_, ih h.2, ?_⟩
    · rw [List.pairwise_map]
      exact pairwise_of_all (fun _ _ => hR (ts x)) _
    · intro p hp q hq
      obtain ⟨e1, _, hpe⟩ := List.mem_map.mp hp
      obtain ⟨y, hy, hqy⟩ := List.mem_flatMap.mp hq
      obtain ⟨e2, _, hqe⟩ := List.mem_map.mp hqy
      rw [← hpe, ← hqe]
      exact h.1 y hy

/-! ### Claims -/

/-- Claim C1: every adapter variant walks the provider window newest-to-oldest
and stops at the first transaction whose id equals the watermark, excluding
that transaction itself — its output is exactly the events of the window
prefix strictly before the watermark; and whenever the watermark occurs
nowhere in the window (in particular for the empty-string watermark against
real, non-empty ids), every inbound transfer the variant derives from the
whole window is returned as new.  For the EVM variant this holds for both
of its query windows, given a configured API key, a registered network key,
and provider status "1". -/
theorem diff_stop_at_watermark :
    (∀ (a w : String) (data : List TronTx),
      check_tron a w (some ⟨data⟩)
          = (beforeStop (fun tx => tx.hash = w) data).flatMap (tronEmit a)
        ∧ ((∀ tx ∈ data, tx.hash ≠ w) →
            check_tron a w (some ⟨data⟩) = data.flatMap (tronEmit a)))
    ∧ (∀ (a w : String) (resp : TonResp),
      check_ton a w (some resp)
          = (beforeStop (fun tx => tx.hash = w) resp.transactions).flatMap tonEmit
        ∧ ((∀ tx ∈ resp.transactions, tx.hash ≠ w) →
            check_ton a w (some resp) = resp.transactions.flatMap tonEmit))
    ∧ (∀ (k a w : String) (txs : List SolTx), k ≠ "" →
      check_solana k a w (some txs)
          = (beforeStop (fun tx => tx.txhash = w) txs).flatMap (solEmit a)
        ∧ ((∀ tx ∈ txs, tx.txhash ≠ w) →
            check_solana k a w (some txs) = txs.flatMap (solEmit a)))
    ∧ (∀ (k a w net : String) (entry : String × ℕ × String)
        (nwin : List EvmNativeTx) (twin : List EvmTokenTx), k ≠ "" →
        ETHERSCAN_NETWORKS.lookup net = some entry →
      check_evm_unified k a w net (some ⟨"1", nwin⟩) (some ⟨"1", twin⟩)
          = (beforeStop (fun tx => tx.hash = w) nwin).flatMap (evmNativeEmit a entry.2.2)
            ++ (beforeStop (fun tx => tx.hash = w) twin).flatMap (evmTokenEmit a)
        ∧ ((∀ tx ∈ nwin, tx.hash ≠ w) → (∀ tx ∈ twin, tx.hash ≠ w) →
            check_evm_unified k a w net (some ⟨"1", nwin⟩) (some ⟨"1", twin⟩)
              = nwin.flatMap (evmNativeEmit a entry.2.2)
                ++ twin.flatMap (evmTokenEmit a))) := by
  refine ⟨?_, ?_, ?_, ?_⟩
  · intro a w data
    refine ⟨scanUntil_eq_flatMap_beforeStop _ _ _, fun h => ?_⟩
    rw [check_tron, scanUntil_eq_flatMap_beforeStop, beforeStop_eq_self _ _ h]
  · intro a w resp
    refine ⟨scanUntil_eq_flatMap_beforeStop _ _ _, fun h => ?_⟩
    rw [check_ton, scanUntil_eq_flatMap_beforeStop, beforeStop_eq_self _ _ h]
  · intro k a w txs hk
    have base : check_solana k a w (some txs)
        = scanUntil (fun tx => tx.txhash = w) (solEmit a) txs := by
      rw [check_solana, if_neg hk]
    refine ⟨by rw [base, scanUntil_eq_flatMap_beforeStop], fun h => ?_⟩
    rw [base, scanUntil_eq_flatMap_beforeStop, beforeStop_eq_self _ _ h]
  · intro k a w net entry nwin twin hk hnet
    have base : check_evm_unified k a w net (some ⟨"1", nwin⟩) (some ⟨"1", twin⟩)
        = scanUntil (fun tx => tx.hash = w) (evmNativeEmit a entry.2.2) nwin
          ++ scanUntil (fun tx => tx.hash = w) (evmTokenEmit a) twin := by
      rw [check_evm_unified, if_neg hk, hnet]
      simp [evmPart]
    refine ⟨by rw [base, scanUntil_eq_flatMap_beforeStop, scanUntil_eq_flatMap_beforeStop],
      fun h1 h2 => ?_⟩
    rw [base, scanUntil_eq_flatMap_beforeStop, scanUntil_eq_flatMap_beforeStop,
      beforeStop_eq_self _ _ h1, beforeStop_eq_self _ _ h2]

/-- Witness for C1: concrete windows checked against the empty watermark,
which occurs in none of them, so each variant returns the whole window's
inbound transfers. -/
theorem diff_stop_at_watermark_witness :
    check_tron "T" "" (some ⟨[⟨"h1", "T", none, false, 1000000, none⟩]⟩)
        = [(⟨"h1", "T", none, false, 1000000, none⟩ : TronTx)].flatMap (tronEmit "T")
    ∧ check_ton "A" "" (some ⟨[⟨"t1", some ⟨2000000000⟩⟩]⟩)
        = [(⟨"t1", some ⟨2000000000⟩⟩ : TonTx)].flatMap tonEmit
    ∧ check_solana "K" "S" "" (some [⟨"s1", [], 1⟩])
        = [(⟨"s1", [], 1⟩ : SolTx)].flatMap (solEmit "S")
    ∧ check_evm_unified "K" "0xa" "" "ethereum"
        (some ⟨"1", [⟨"n1", "0xa", 10 ^ 18, 200⟩]⟩)
        (some ⟨"1", [⟨"t1", "0xa", 5, some 0, some "USDT", 100⟩]⟩)
        = [(⟨"n1", "0xa", 10 ^ 18, 200⟩ : EvmNativeTx)].flatMap (evmNativeEmit "0xa" "ETH")
          ++ [(⟨"t1", "0xa", 5, some 0, some "USDT", 100⟩ : EvmTokenTx)].flatMap
              (evmTokenEmit "0xa") := by
  obtain ⟨h1, h2, h3, h4⟩ := diff_stop_at_watermark
  exact ⟨(h1 "T" "" _).2 (by decide),
    (h2 "A" "" _).2 (by decide),
    (h3 "K" "S" "" _ (by decide)).2 (by decide),
    (h4 "K" "0xa" "" "ethereum" ("Ethereum Mainnet", 1, "ETH") _ _ (by decide) rfl).2
      (by decide) (by decide)⟩

/-- Claim C2: for a wallet whose diff yields the non-empty newest-first
sequence [T3, T2, T1], the dispatcher processes T1 first, then T2, then T3
(oldest first; each delivered send is followed by the 0.5-second rate-limit
sleep, and a send failure is logged and skipped without stopping the loop);
the delivered notifications are exactly the non-failing ones in the order
T1, T2, T3; and the watermark write is the single, final action of the
trace, storing T3's id, regardless of which sends fail. -/
theorem dispatch_order_and_watermark (fails : String → Bool) (wid uid : ℕ) (t1 t2 t3 : Ev) :
    dispatch_wallet fails wid uid [t3, t2, t1]
        = sendOne fails uid t1 ++ sendOne fails uid t2 ++ sendOne fails uid t3
          ++ [.updateLastTx wid t3.1]
    ∧ (dispatch_wallet fails wid uid [t3, t2, t1]).filter Act.isUpdate
        = [.updateLastTx wid t3.1]
    ∧ (dispatch_wallet fails wid uid [t3, t2, t1]).filter Act.isSend
        = ([t1, t2, t3].filter (fun e => !(fails e.1))).map
            (fun e => Act.send uid e.1 e.2.1 e.2.2)
    ∧ dispatch_wallet (fun _ => false) wid uid [t3, t2, t1]
        = [.send uid t1.1 t1.2.1 t1.2.2, .sleep (1 / 2),
           .send uid t2.1 t2.2.1 t2.2.2, .sleep (1 / 2),
           .send uid t3.1 t3.2.1 t3.2.2, .sleep (1 / 2),
           .updateLastTx wid t3.1] := by
  obtain ⟨h1, c1, a1⟩ := t1
  obtain ⟨h2, c2, a2⟩ := t2
  obtain ⟨h3, c3, a3⟩ := t3
  refine ⟨by simp [dispatch_wallet], ?_, ?_, by simp [dispatch_wallet, sendOne]⟩
  · cases hf1 : fails h1 <;> cases hf2 : fails h2 <;> cases hf3 : fails h3 <;>
      simp [dispatch_wallet, sendOne, hf1, hf2, hf3, Act.isUpdate]
  · cases hf1 : fails h1 <;> cases hf2 : fails h2 <;> cases hf3 : fails h3 <;>
      simp [dispatch_wallet, sendOne, hf1, hf2, hf3, Act.isSend]

/-- Counterexample to claim C3 as stated: a response sequence of
[500, 500, 500] does not exhaust 3 retry attempts — the first 500 makes
`fetch_with_retry` return `None` immediately, so exactly one request is
issued, not three.  (The absence of an exception and the absent result do
hold.) -/
theorem fetch_500_no_retry :
    fetch_with_retry (fun _ => .httpStatus 500 "") = ⟨none, 1, []⟩
    ∧ (fetch_with_retry (fun _ => .httpStatus 500 "")).requests ≠ 3 := by
  constructor
  · rfl
  · decide

/-- Claim C3 amended: `fetch_with_retry` retries only on timeout and on
HTTP 429, up to `MAX_RETRIES` (3) attempts; any other non-200, non-404
status aborts after a single request with an absent result (so [500, 500,
500] yields absent after exactly one request); a timeout or a 429 is
followed by a backoff sleep and a retry; no call ever issues more than
`MAX_RETRIES` requests; and the function always returns (absence, never an
exception, models exhaustion). -/
theorem fetch_retry_behavior :
    (∀ (resps : ℕ → HResp) (code : ℕ) (body : String),
      resps 0 = .httpStatus code body → code ≠ 200 → code ≠ 429 → code ≠ 404 →
      fetch_with_retry resps = ⟨none, 1, []⟩)
    ∧ fetch_with_retry (fun _ => .httpStatus 500 "") = ⟨none, 1, []⟩
    ∧ (∀ (resps : ℕ → HResp) (b : String),
      resps 0 = .timeout → resps 1 = .httpStatus 200 b →
      fetch_with_retry resps = ⟨some b, 2, [1]⟩)
    ∧ (∀ (resps : ℕ → HResp) (b0 b : String),
      resps 0 = .httpStatus 429 b0 → resps 1 = .httpStatus 200 b →
      fetch_with_retry resps = ⟨some b, 2, [1]⟩)
    ∧ (∀ resps : ℕ → HResp, (fetch_with_retry resps).requests ≤ MAX_RETRIES) := by
  refine ⟨?_, rfl, ?_, ?_, fun resps => fetchAux_requests_le resps MAX_RETRIES 0⟩
  · intro resps code body h0 hc1 hc2 hc3
    simp [fetch_with_retry, MAX_RETRIES, fetchAux, h0, hc1, hc2, hc3]
  · intro resps b h0 h1
    simp [fetch_with_retry, MAX_RETRIES, fetchAux, h0, h1]
  · intro resps b0 b h0 h1
    simp [fetch_with_retry, MAX_RETRIES, fetchAux, h0, h1]

/-- Witness for the amended C3 at concrete response streams: a 503 aborts
at once; a timeout then a 200 takes two requests with one backoff sleep; a
429 then a 200 likewise; and the request count is bounded by
`MAX_RETRIES`. -/
theorem fetch_retry_behavior_witness :
    fetch_with_retry (fun _ => .httpStatus 503 "x") = ⟨none, 1, []⟩
    ∧ fetch_with_retry (fun i => if i = 0 then .timeout else .httpStatus 200 "ok")
        = ⟨some "ok", 2, [1]⟩
    ∧ fetch_with_retry (fun i => if i = 0 then .httpStatus 429 "" else .httpStatus 200 "ok")
        = ⟨some "ok", 2, [1]⟩
    ∧ (fetch_with_retry (fun _ => .httpStatus 503 "x")).requests ≤ MAX_RETRIES := by
  obtain ⟨h1, _, h3, h4, h5⟩ := fetch_retry_behavior
  exact ⟨h1 _ 503 "x" rfl (by decide) (by decide) (by decide),
    h3 _ "ok" rfl rfl, h4 _ "" "ok" rfl rfl, h5 _⟩

/-- Every event of one EVM query half originates from a record of that
query's successful response window. -/
theorem mem_evmPart {α : Type} {emit : α → List Ev} {w : String} {hashOf : α → String}
    {resp : Option (EvmResp α)} {e : Ev} (h : e ∈ evmPart emit w hashOf resp) :
    ∃ js, resp = some js ∧ ∃ tx ∈ js.result, e ∈ emit tx := by
  cases resp with
  | none => simp [evmPart] at h
  | some js =>
    simp only [evmPart] at h
    by_cases hs : js.status = "1"
    · rw [if_pos hs] at h
      exact ⟨js, rfl, mem_scanUntil h⟩
    · rw [if_neg hs] at h
      simp at h

/-- Claim C4: no adapter variant ever emits a transfer whose destination
field fails to case-insensitively match the monitored address.  Per variant
this reads: every TRON event comes from a window record whose `toAddress`
matches; every EVM event comes from a native or token record whose `to`
matches; every Solana event is either a token leg whose `destination`
matches or the fallback event of a successful no-leg transaction (which
carries no destination field at all); every TON event comes from the
inbound-message leg of a window transaction (tonapi returns the monitored
account's own transactions; the record fields the source reads carry no
separate destination). -/
theorem diff_inbound_only :
    (∀ (a w : String) (data : List TronTx) (e : Ev),
      e ∈ check_tron a w (some ⟨data⟩) →
      ∃ tx ∈ data, e.1 = tx.hash ∧ tx.toAddress.toLower = a.toLower)
    ∧ (∀ (k a w net : String) (nresp : Option (EvmResp EvmNativeTx))
        (tresp : Option (EvmResp EvmTokenTx)) (e : Ev),
      e ∈ check_evm_unified k a w net nresp tresp →
      (∃ js, nresp = some js ∧
        ∃ tx ∈ js.result, e.1 = tx.hash ∧ tx.toAddr.toLower = a.toLower)
      ∨ (∃ js, tresp = some js ∧
        ∃ tx ∈ js.result, e.1 = tx.hash ∧ tx.toAddr.toLower = a.toLower))
    ∧ (∀ (k a w : String) (txs : List SolTx) (e : Ev),
      e ∈ check_solana k a w (some txs) →
      (∃ tx ∈ txs, ∃ leg ∈ tx.tokenTransfers, leg.destination.toLower = a.toLower ∧
        e = (tx.txhash, leg.symbol.getD "SOL", leg.amount))
      ∨ (∃ tx ∈ txs, tx.tokenTransfers = [] ∧ tx.status = 1 ∧
        e = (tx.txhash, "SOL", (0 : ℚ))))
    ∧ (∀ (a w : String) (resp : TonResp) (e : Ev),
      e ∈ check_ton a w (some resp) →
      ∃ tx ∈ resp.transactions, ∃ m, tx.in_msg = some m ∧
        e = (tx.hash, "TON", (m.value : ℚ) / 10 ^ 9)) := by
  refine ⟨?_, ?_, ?_, ?_⟩
  · intro a w data e h
    obtain ⟨tx, htx, he⟩ := mem_scanUntil h
    exact ⟨tx, htx, mem_tronEmit he⟩
  · intro k a w net nresp tresp e h
    unfold check_evm_unified at h
    by_cases hk : k = ""
    · rw [if_pos hk] at h
      simp at h
    · rw [if_neg hk] at h
      cases hl : ETHERSCAN_NETWORKS.lookup net with
      | none => rw [hl] at h; simp at h
      | some entry =>
        rw [hl] at h
        dsimp only at h
        rcases List.mem_append.mp h with h1 | h2
        · obtain ⟨js, hjs, tx, htx, he⟩ := mem_evmPart h1
          exact Or.inl ⟨js, hjs, tx, htx, mem_evmNativeEmit he⟩
        · obtain ⟨js, hjs, tx, htx, he⟩ := mem_evmPart h2
          exact Or.inr ⟨js, hjs, tx, htx, mem_evmTokenEmit he⟩
  · intro k a w txs e h
    unfold check_solana at h
    by_cases hk : k = ""
    · rw [if_pos hk] at h
      simp at h
    · rw [if_neg hk] at h
      obtain ⟨tx, htx, he⟩ := mem_scanUntil h
      rcases mem_solEmit he with ⟨leg, hleg, hd, heq⟩ | ⟨hempty, hstat, heq⟩
      · exact Or.inl ⟨tx, htx, leg, hleg, hd, heq⟩
      · exact Or.inr ⟨tx, htx, hempty, hstat, heq⟩
  · intro a w resp e h
    obtain ⟨tx, htx, he⟩ := mem_scanUntil h
    exact ⟨tx, htx, mem_tonEmit he⟩

/-- Witness for C4: a concrete TRON event and a concrete Solana fallback
event are both traced back to matching window records. -/
theorem diff_inbound_only_witness :
    (∃ tx ∈ [(⟨"h1", "T", none, false, 1000000, none⟩ : TronTx)],
      (("h1", "TRX", (1 : ℚ)) : Ev).1 = tx.hash ∧ tx.toAddress.toLower = "T".toLower)
    ∧ ((∃ tx ∈ [(⟨"s1", [], 1⟩ : SolTx)], ∃ leg ∈ tx.tokenTransfers,
        leg.destination.toLower = "S".toLower ∧
        (("s1", "SOL", (0 : ℚ)) : Ev) = (tx.txhash, leg.symbol.getD "SOL", leg.amount))
      ∨ (∃ tx ∈ [(⟨"s1", [], 1⟩ : SolTx)], tx.tokenTransfers = [] ∧ tx.status = 1 ∧
        (("s1", "SOL", (0 : ℚ)) : Ev) = (tx.txhash, "SOL", (0 : ℚ)))) := by
  obtain ⟨h1, _, h3, _⟩ := diff_inbound_only
  exact ⟨h1 "T" "" _ ("h1", "TRX", (1 : ℚ)) (by norm_num [check_tron, scanUntil, tronEmit]; decide),
    h3 "K" "S" "" _ ("s1", "SOL", (0 : ℚ)) (by decide)⟩

/-- Counterexample to claim C5 as stated: for the EVM variant the watermark
"n1" equals the id of the newest transaction of the returned window (the
native record with the largest timestamp, 200, versus 100 for the token
record), yet diff is not empty — the single watermark does not occur in the
token window, so the token window's inbound transfer is re-emitted. -/
theorem evm_newest_watermark_reemits_tokens :
    check_evm_unified "K" "0xabc" "n1" "ethereum"
        (some ⟨"1", [⟨"n1", "0xabc", 10 ^ 18, 200⟩]⟩)
        (some ⟨"1", [⟨"t1", "0xabc", 5, some 0, some "USDT", 100⟩]⟩)
      = [("t1", "USDT", (5 : ℚ))]
    ∧ check_evm_unified "K" "0xabc" "n1" "ethereum"
        (some ⟨"1", [⟨"n1", "0xabc", 10 ^ 18, 200⟩]⟩)
        (some ⟨"1", [⟨"t1", "0xabc", 5, some 0, some "USDT", 100⟩]⟩) ≠ []
    ∧ (100 : ℚ) ≤ 200 := by
  have hl : ETHERSCAN_NETWORKS.lookup "ethereum" = some ("Ethereum Mainnet", 1, "ETH") := rfl
  have h : check_evm_unified "K" "0xabc" "n1" "ethereum"
      (some ⟨"1", [⟨"n1", "0xabc", 10 ^ 18, 200⟩]⟩)
      (some ⟨"1", [⟨"t1", "0xabc", 5, some 0, some "USDT", 100⟩]⟩)
      = [("t1", "USDT", (5 : ℚ))] := by
    rw [check_evm_unified, if_neg (by decide), hl]
    norm_num [evmPart, scanUntil, evmNativeEmit, evmTokenEmit,
      show ("t1" : String) ≠ "n1" by decide]
  exact ⟨h, by rw [h]; simp, by norm_num⟩

/-- Claim C5 amended: if the watermark equals the id of the newest (first)
transaction of a variant's window, that window contributes nothing: diff is
empty for TRON, TON and Solana; for the EVM variant, whose two queries are
cut by the same single watermark, diff is empty when the watermark heads
both the native and the token window — but when it heads only the native
window and does not occur in the token window, the token window's inbound
transfers are re-emitted (see the counterexample). -/
theorem diff_idempotent_at_newest :
    (∀ (a : String) (tx : TronTx) (rest : List TronTx),
      check_tron a tx.hash (some ⟨tx :: rest⟩) = [])
    ∧ (∀ (a : String) (tx : TonTx) (rest : List TonTx),
      check_ton a tx.hash (some ⟨tx :: rest⟩) = [])
    ∧ (∀ (k a : String) (tx : SolTx) (rest : List SolTx),
      check_solana k a tx.txhash (some (tx :: rest)) = [])
    ∧ (∀ (k a net h nto : String) (nv : ℤ) (nts : ℚ) (nrest : List EvmNativeTx)
        (tto : String) (tv : ℤ) (td : Option ℕ) (tsym : Option String) (tts : ℚ)
        (trest : List EvmTokenTx),
      check_evm_unified k a h net
        (some ⟨"1", ⟨h, nto, nv, nts⟩ :: nrest⟩)
        (some ⟨"1", ⟨h, tto, tv, td, tsym, tts⟩ :: trest⟩) = []) := by
  refine ⟨?_, ?_, ?_, ?_⟩
  · intro a tx rest
    simp [check_tron, scanUntil]
  · intro a tx rest
    simp [check_ton, scanUntil]
  · intro k a tx rest
    by_cases hk : k = "" <;> simp [check_solana, scanUntil, hk]
  · intro k a net h nto nv nts nrest tto tv td tsym tts trest
    by_cases hk : k = ""
    · simp [check_evm_unified, hk]
    · rw [check_evm_unified, if_neg hk]
      cases hl : ETHERSCAN_NETWORKS.lookup net with
      | none => rfl
      | some entry =>
        dsimp only
        simp [evmPart, scanUntil]

/-- One EVM query half with every emitted event tagged by the provider
timestamp of its source record.  The checker itself discards timestamps;
this auxiliary definition only serves to compare the output order with the
on-chain order (`sort=desc` makes each provider window descend by
timestamp). -/
def evmPartTs {α : Type} (emit : α → List Ev) (last_tx : String) (hashOf : α → String)
    (tsOf : α → ℚ) (resp : Option (EvmResp α)) : List (Ev × ℚ) :=
  match resp with
  | none => []
  | some js =>
    if js.status = "1" then
      (beforeStop (fun tx => hashOf tx = last_tx) js.result).flatMap
        (fun tx => (emit tx).map (fun e => (e, tsOf tx)))
    else []

/-- `check_evm_unified` with timestamp tags on every event. -/
def check_evm_unified_ts (apiKey address last_tx net_key : String)
    (nativeResp : Option (EvmResp EvmNativeTx)) (tokenResp : Option (EvmResp EvmTokenTx)) :
    List (Ev × ℚ) :=
  if apiKey = "" then []
  else
    match ETHERSCAN_NETWORKS.lookup net_key with
    | none => []
    | some entry =>
      evmPartTs (evmNativeEmit address entry.2.2) last_tx (fun tx => tx.hash)
          (fun tx => tx.timeStamp) nativeResp
        ++ evmPartTs (evmTokenEmit address) last_tx (fun tx => tx.hash)
          (fun tx => tx.timeStamp) tokenResp

/-- Dropping the timestamp tags of one query half recovers the checker's
events. -/
theorem evmPartTs_fst {α : Type} (emit : α → List Ev) (last_tx : String)
    (hashOf : α → String) (tsOf : α → ℚ) (resp : Option (EvmResp α)) :
    (evmPartTs emit last_tx hashOf tsOf resp).map Prod.fst = evmPart emit last_tx hashOf resp := by
  cases resp with
  | none => rfl
  | some js =>
    simp only [evmPartTs, evmPart]
    by_cases hs : js.status = "1"
    · rw [if_pos hs, if_pos hs, scanUntil_eq_flatMap_beforeStop]
      induction beforeStop (fun tx => hashOf tx = last_tx) js.result with
      | nil => rfl
      | cons x xs ih => simp [ih, List.map_map, Function.comp_def]
    · rw [if_neg hs, if_neg hs]
      rfl

/-- Dropping the timestamp tags recovers `check_evm_unified`. -/
theorem check_evm_unified_ts_fst (k a w net : String)
    (nresp : Option (EvmResp EvmNativeTx)) (tresp : Option (EvmResp EvmTokenTx)) :
    (check_evm_unified_ts k a w net nresp tresp).map Prod.fst
      = check_evm_unified k a w net nresp tresp := by
  unfold check_evm_unified_ts check_evm_unified
  by_cases hk : k = ""
  · rw [if_pos hk, if_pos hk]
    rfl
  · rw [if_neg hk, if_neg hk]
    cases ETHERSCAN_NETWORKS.lookup net with
    | none => rfl
    | some entry =>
      dsimp only
      rw [List.map_append, evmPartTs_fst, evmPartTs_fst]

/-- Counterexample to claim C6 as stated: with a native window holding one
inbound transfer at timestamp 100 and a token window holding one inbound
transfer at timestamp 200, the merged diff output lists the native event
first although the token event is newer — the merge is not ordered newest
first as a whole. -/
theorem evm_merge_not_newest_first :
    check_evm_unified_ts "K" "0xabc" "h0" "ethereum"
        (some ⟨"1", [⟨"n1", "0xabc", 10 ^ 18, 100⟩]⟩)
        (some ⟨"1", [⟨"t1", "0xabc", 5, some 0, some "USDT", 200⟩]⟩)
      = [(("n1", "ETH", (1 : ℚ)), 100), (("t1", "USDT", (5 : ℚ)), 200)]
    ∧ ¬ ([(("n1", "ETH", (1 : ℚ)), 100), (("t1", "USDT", (5 : ℚ)), 200)] :
          List (Ev × ℚ)).Pairwise (fun p q => q.2 ≤ p.2)
    ∧ (check_evm_unified_ts "K" "0xabc" "h0" "ethereum"
        (some ⟨"1", [⟨"n1", "0xabc", 10 ^ 18, 100⟩]⟩)
        (some ⟨"1", [⟨"t1", "0xabc", 5, some 0, some "USDT", 200⟩]⟩)).map Prod.fst
      = check_evm_unified "K" "0xabc" "h0" "ethereum"
        (some ⟨"1", [⟨"n1", "0xabc", 10 ^ 18, 100⟩]⟩)
        (some ⟨"1", [⟨"t1", "0xabc", 5, some 0, some "USDT", 200⟩]⟩) := by
  have hl : ETHERSCAN_NETWORKS.lookup "ethereum" = some ("Ethereum Mainnet", 1, "ETH") := rfl
  refine ⟨?_, ?_, check_evm_unified_ts_fst _ _ _ _ _ _⟩
  · rw [check_evm_unified_ts, if_neg (by decide), hl]
    norm_num [evmPartTs, beforeStop, evmNativeEmit, evmTokenEmit,
      show ("n1" : String) ≠ "h0" by decide, show ("t1" : String) ≠ "h0" by decide]
  · norm_num [List.pairwise_cons]

/-- Claim C6 amended: the EVM diff output is the native-query events
followed by the token-query events (one concatenation, both halves cut at
the same watermark); each half preserves its own window's order, so it is
newest first within the half whenever the provider window descends by
timestamp — but the merge is concatenation, not a timestamp interleaving,
so the whole sequence is not newest first in general (see the
counterexample). -/
theorem evm_merge_concat_ordered (k a w net : String) (entry : String × ℕ × String)
    (nwin : List EvmNativeTx) (twin : List EvmTokenTx) (hk : k ≠ "")
    (hnet : ETHERSCAN_NETWORKS.lookup net = some entry) :
    check_evm_unified k a w net (some ⟨"1", nwin⟩) (some ⟨"1", twin⟩)
        = (evmPartTs (evmNativeEmit a entry.2.2) w (fun tx => tx.hash)
            (fun tx => tx.timeStamp) (some ⟨"1", nwin⟩)).map Prod.fst
          ++ (evmPartTs (evmTokenEmit a) w (fun tx => tx.hash)
            (fun tx => tx.timeStamp) (some ⟨"1", twin⟩)).map Prod.fst
    ∧ (nwin.Pairwise (fun x y => y.timeStamp ≤ x.timeStamp) →
        (evmPartTs (evmNativeEmit a entry.2.2) w (fun tx => tx.hash)
          (fun tx => tx.timeStamp) (some ⟨"1", nwin⟩)).Pairwise (fun p q => q.2 ≤ p.2))
    ∧ (twin.Pairwise (fun x y => y.timeStamp ≤ x.timeStamp) →
        (evmPartTs (evmTokenEmit a) w (fun tx => tx.hash)
          (fun tx => tx.timeStamp) (some ⟨"1", twin⟩)).Pairwise (fun p q => q.2 ≤ p.2)) := by
  refine ⟨?_, ?_, ?_⟩
  · rw [check_evm_unified, if_neg hk, hnet, evmPartTs_fst, evmPartTs_fst]
  · intro hsort
    simp only [evmPartTs, if_pos rfl]
    exact pairwise_flatMap_ts (fun u v => v ≤ u) (fun q => le_refl q) _ _ _
      (List.Pairwise.sublist (beforeStop_sublist _ _) hsort)
  · intro hsort
    simp only [evmPartTs, if_pos rfl]
    exact pairwise_flatMap_ts (fun u v => v ≤ u) (fun q => le_refl q) _ _ _
      (List.Pairwise.sublist (beforeStop_sublist _ _) hsort)

/-- Witness for the amended C6 at concrete sorted windows. -/
theorem evm_merge_concat_ordered_witness :
    check_evm_unified "K" "0xabc" "h0" "ethereum"
        (some ⟨"1", [⟨"n1", "0xabc", 10 ^ 18, 100⟩]⟩)
        (some ⟨"1", [⟨"t1", "0xabc", 5, some 0, some "USDT", 200⟩]⟩)
        = (evmPartTs (evmNativeEmit "0xabc" ("Ethereum Mainnet", 1, "ETH").2.2) "h0"
            (fun tx => tx.hash) (fun tx => tx.timeStamp)
            (some ⟨"1", [⟨"n1", "0xabc", 10 ^ 18, 100⟩]⟩)).map Prod.fst
          ++ (evmPartTs (evmTokenEmit "0xabc") "h0" (fun tx => tx.hash)
            (fun tx => tx.timeStamp)
            (some ⟨"1", [⟨"t1", "0xabc", 5, some 0, some "USDT", 200⟩]⟩)).map Prod.fst
    ∧ (evmPartTs (evmNativeEmit "0xabc" ("Ethereum Mainnet", 1, "ETH").2.2) "h0"
        (fun tx => tx.hash) (fun tx => tx.timeStamp)
        (some ⟨"1", [⟨"n1", "0xabc", 10 ^ 18, 100⟩]⟩)).Pairwise (fun p q => q.2 ≤ p.2)
    ∧ (evmPartTs (evmTokenEmit "0xabc") "h0" (fun tx => tx.hash) (fun tx => tx.timeStamp)
        (some ⟨"1", [⟨"t1", "0xabc", 5, some 0, some "USDT", 200⟩]⟩)).Pairwise
          (fun p q => q.2 ≤ p.2) := by
  obtain ⟨h1, h2, h3⟩ := evm_merge_concat_ordered "K" "0xabc" "h0" "ethereum"
    ("Ethereum Mainnet", 1, "ETH") [⟨"n1", "0xabc", 10 ^ 18, 100⟩]
    [⟨"t1", "0xabc", 5, some 0, some "USDT", 200⟩] (by decide) rfl
  exact ⟨h1, h2 (by simp), h3 (by simp)⟩

/-- Claim C7: a response sequence of [429, 429, 200] makes `fetch_with_retry`
issue exactly 3 requests with exactly two sleeps between them, of durations
2^0 + 0*0.5 = 1 and 2^1 + 1*0.5 = 2.5 — strictly increasing — and return
the 200 body; in general a 429 on attempt i sleeps 2^i + i*0.5 seconds
before the next attempt. -/
theorem fetch_429_backoff :
    (∀ b : String,
      fetch_with_retry (fun i => if i < 2 then .httpStatus 429 "r" else .httpStatus 200 b)
        = ⟨some b, 3, [2 ^ 0 + 0 * (1 / 2), 2 ^ 1 + 1 * (1 / 2)]⟩)
    ∧ ((2 : ℚ) ^ 0 + 0 * (1 / 2) < 2 ^ 1 + 1 * (1 / 2))
    ∧ (∀ (resps : ℕ → HResp) (i fuel : ℕ) (b : String),
      resps i = .httpStatus 429 b →
      fetchAux resps i (fuel + 1)
        = ⟨(fetchAux resps (i + 1) fuel).result,
           (fetchAux resps (i + 1) fuel).requests + 1,
           (2 ^ i + (i : ℚ) * (1 / 2)) :: (fetchAux resps (i + 1) fuel).sleeps⟩) := by
  refine ⟨?_, by norm_num, ?_⟩
  · intro b
    norm_num [fetch_with_retry, MAX_RETRIES, fetchAux]
  · intro resps i fuel b h
    simp [fetchAux, h]

/-- Witness for C7: the [429, 429, 200] scenario at a concrete body, and
the general backoff equation at a concrete 429 stream. -/
theorem fetch_429_backoff_witness :
    fetch_with_retry (fun i => if i < 2 then .httpStatus 429 "r" else .httpStatus 200 "BODY")
        = ⟨some "BODY", 3, [2 ^ 0 + 0 * (1 / 2), 2 ^ 1 + 1 * (1 / 2)]⟩
    ∧ fetchAux (fun _ => .httpStatus 429 "x") 0 2
        = ⟨(fetchAux (fun _ => .httpStatus 429 "x") 1 1).result,
           (fetchAux (fun _ => .httpStatus 429 "x") 1 1).requests + 1,
           (2 ^ 0 + (0 : ℚ) * (1 / 2)) :: (fetchAux (fun _ => .httpStatus 429 "x") 1 1).sleeps⟩ := by
  obtain ⟨h1, _, h3⟩ := fetch_429_backoff
  exact ⟨h1 "BODY", h3 (fun _ => .httpStatus 429 "x") 0 1 "x" rfl⟩

/-- Claim C8: a `get_price_usd` call that finds a cache entry for the
cleaned symbol younger than the 60-second TTL returns the cached price
without issuing any HTTP request and leaves the cache unchanged; a call
that finds the entry older than the TTL issues a new fetch (the stale entry
is never returned as is); and with no fresh entry a failed fetch returns 0
and writes no cache entry at all. -/
theorem price_cache_ttl (cache : List (String × ℚ × ℚ)) (now : ℚ) (symbol : String)
    (p ts : ℚ) :
    (cache.lookup (clean_symbol symbol) = some (p, ts) →
      now - ts < PRICE_CACHE_DURATION →
      ∀ o, get_price_usd cache now symbol o = ⟨p, cache, false⟩)
    ∧ (cache.lookup (clean_symbol symbol) = some (p, ts) →
      PRICE_CACHE_DURATION < now - ts →
      ∀ o, (get_price_usd cache now symbol o).didFetch = true)
    ∧ (isFresh cache now symbol = false →
      get_price_usd cache now symbol .failure = ⟨0, cache, true⟩) := by
  refine ⟨?_, ?_, ?_⟩
  · intro h hfresh o
    unfold get_price_usd
    dsimp only
    rw [h]
    exact if_pos hfresh
  · intro h hstale o
    unfold get_price_usd
    dsimp only
    rw [h]
    show (if now - ts < PRICE_CACHE_DURATION then (⟨p, cache, false⟩ : PriceResult)
          else priceFetch cache now (clean_symbol symbol) o).didFetch = true
    rw [if_neg (not_lt.mpr (le_of_lt hstale))]
    cases o <;> simp [priceFetch]
  · intro h
    unfold isFresh at h
    unfold get_price_usd
    dsimp only
    cases hl : cache.lookup (clean_symbol symbol) with
    | none => simp [priceFetch]
    | some pr =>
      obtain ⟨p1, ts1⟩ := pr
      rw [hl] at h
      simp only [decide_eq_false_iff_not] at h
      show (if now - ts1 < PRICE_CACHE_DURATION then (⟨p1, cache, false⟩ : PriceResult)
            else priceFetch cache now (clean_symbol symbol) .failure) = ⟨0, cache, true⟩
      rw [if_neg h]
      rfl

/-- Witness for C8 at a concrete one-entry cache: a hit 30 seconds after
the write is served from the cache with no fetch; at 100 seconds the entry
is stale, a fetch is issued, and a failing fetch returns 0 leaving the
cache untouched. -/
theorem price_cache_ttl_witness :
    get_price_usd [(clean_symbol "ETH", 100, 0)] 30 "ETH" .failure
        = ⟨100, [(clean_symbol "ETH", 100, 0)], false⟩
    ∧ (get_price_usd [(clean_symbol "ETH", 100, 0)] 100 "ETH" .failure).didFetch = true
    ∧ get_price_usd [(clean_symbol "ETH", 100, 0)] 100 "ETH" .failure
        = ⟨0, [(clean_symbol "ETH", 100, 0)], true⟩ := by
  obtain ⟨h1, _, _⟩ := price_cache_ttl [(clean_symbol "ETH", 100, 0)] 30 "ETH" 100 0
  obtain ⟨_, g2, g3⟩ := price_cache_ttl [(clean_symbol "ETH", 100, 0)] 100 "ETH" 100 0
  refine ⟨h1 (by simp [List.lookup]) (by norm_num [PRICE_CACHE_DURATION]) _,
    g2 (by simp [List.lookup]) (by norm_num [PRICE_CACHE_DURATION]) _,
    g3 ?_⟩
  simp [isFresh, List.lookup, PRICE_CACHE_DURATION]
  norm_num

/-- Claim C9: for a TRON wallet with watermark "h0" whose provider window is
[h2 (amount 5,000,000), h1 (amount 1,000,000), h0], both inbound at the
monitored address, diff yields exactly [(h2, TRX, 5), (h1, TRX, 1)] (raw
amounts divided by 10^6 under the default 6 decimals), the dispatcher sends
(h1, TRX, 1) first and (h2, TRX, 5) second, and the stored watermark
afterwards is "h2". -/
theorem tron_end_to_end :
    check_tron "Txxx" "h0"
        (some ⟨[⟨"h2", "Txxx", none, false, 5000000, none⟩,
                ⟨"h1", "Txxx", none, false, 1000000, none⟩,
                ⟨"h0", "Txxx", none, false, 7, none⟩]⟩)
      = [("h2", "TRX", (5 : ℚ)), ("h1", "TRX", (1 : ℚ))]
    ∧ check_single_wallet
        ⟨"", "", some ⟨[⟨"h2", "Txxx", none, false, 5000000, none⟩,
                        ⟨"h1", "Txxx", none, false, 1000000, none⟩,
                        ⟨"h0", "Txxx", none, false, 7, none⟩]⟩,
          none, none, none, none, fun _ => false⟩
        ⟨1, 7, "tron", "Txxx", "Shop", "h0"⟩
      = [.send 7 "h1" "TRX" 1, .sleep (1 / 2), .send 7 "h2" "TRX" 5, .sleep (1 / 2),
         .updateLastTx 1 "h2"] := by
  have h : check_tron "Txxx" "h0"
      (some ⟨[⟨"h2", "Txxx", none, false, 5000000, none⟩,
              ⟨"h1", "Txxx", none, false, 1000000, none⟩,
              ⟨"h0", "Txxx", none, false, 7, none⟩]⟩)
      = [("h2", "TRX", (5 : ℚ)), ("h1", "TRX", (1 : ℚ))] := by
    norm_num [check_tron, scanUntil, tronEmit,
      show ("h2" : String) ≠ "h0" by decide, show ("h1" : String) ≠ "h0" by decide]
  refine ⟨h, ?_⟩
  simp only [check_single_wallet, walletDiff]
  norm_num [h, dispatch_wallet, sendOne]

/-- Claim C10: when a wallet's diff is empty — including every
provider-failure and missing-API-key case, each of which yields an empty
diff — the wallet's check performs no action at all: nothing is sent and
the stored watermark is untouched; and in every case the only wallet-row
mutation the monitor path can perform is `update_last_tx` on this wallet's
own row (an UPDATE of the `last_tx` field only, the sole mutating action in
the trace model), present exactly when the diff is non-empty and storing
the newest transfer's id. -/
theorem empty_diff_frame :
    (∀ (env : Env) (w : WalletRow), walletDiff env w = [] → check_single_wallet env w = [])
    ∧ (∀ (fails : String → Bool) (wid uid : ℕ), dispatch_wallet fails wid uid [] = [])
    ∧ (∀ a w, check_tron a w none = [])
    ∧ (∀ a w, check_ton a w none = [])
    ∧ (∀ k a w, check_solana k a w none = [])
    ∧ (∀ a w r, check_solana "" a w r = [])
    ∧ (∀ a w net nr tr, check_evm_unified "" a w net nr tr = [])
    ∧ (∀ k a w net nr tr, ETHERSCAN_NETWORKS.lookup net = none →
        check_evm_unified k a w net nr tr = [])
    ∧ (∀ (env : Env) (w : WalletRow),
        (check_single_wallet env w).filter Act.isUpdate
          = match walletDiff env w with
            | [] => []
            | (latest, _, _) :: _ => [Act.updateLastTx w.id latest]) := by
  refine ⟨?_, fun _ _ _ => rfl, fun _ _ => rfl, fun _ _ => rfl, ?_,
    ?_, ?_, ?_, ?_⟩
  · intro env w h
    unfold check_single_wallet
    rw [h]
    rfl
  · intro k a w
    simp [check_solana]
  · intro a w r
    simp [check_solana]
  · intro a w net nr tr
    simp [check_evm_unified]
  · intro k a w net nr tr h
    by_cases hk : k = ""
    · simp [check_evm_unified, hk]
    · rw [check_evm_unified, if_neg hk, h]
  · intro env w
    unfold check_single_wallet
    have hnone : ∀ l : List Ev,
        (l.flatMap (sendOne env.fails w.userId)).filter Act.isUpdate = [] := by
      intro l
      induction l with
      | nil => rfl
      | cons x xs ih => by_cases hf : env.fails x.1 <;> simp [sendOne, hf, Act.isUpdate, ih]
    cases hd : walletDiff env w with
    | nil => rfl
    | cons e rest =>
      obtain ⟨latest, c, amt⟩ := e
      show ((((latest, c, amt) :: rest).reverse.flatMap (sendOne env.fails w.userId))
          ++ [Act.updateLastTx w.id latest]).filter Act.isUpdate
        = [Act.updateLastTx w.id latest]
      rw [List.filter_append, hnone]
      simp [Act.isUpdate]

/-- Witness for C10: a TRON wallet whose provider fetch failed produces an
empty trace, and an unknown EVM network key yields an empty diff. -/
theorem empty_diff_frame_witness :
    check_single_wallet ⟨"", "", none, none, none, none, none, fun _ => false⟩
        ⟨1, 7, "tron", "Txxx", "Shop", "h0"⟩ = []
    ∧ check_evm_unified "K" "0xabc" "" "nosuch" none none = [] := by
  obtain ⟨h1, _, _, _, _, _, _, h8, _⟩ := empty_diff_frame
  exact ⟨h1 _ _ rfl, h8 "K" "0xabc" "" "nosuch" none none rfl⟩
